import Mathlib

/-!
Verification development for the hospital operations backend
(`src/main.py` with record shapes from `src/schemas.py`).

The document store is modelled as an explicit `Store` value threaded
through each endpoint handler.  Machine integers in the source are
Python arbitrary-precision integers, so counters (`bed_count`,
`occupied_beds`, `stock`) are `Int`.  Timestamps are modelled as
integer epoch seconds.  Vital-sign values (`Dict[str, Optional[float]]`)
only ever flow into a single comparison (`spo2 < 90`), so they are
modelled as exact rationals.  Generated document identifiers
(Mongo ObjectIds in the source) are abstracted as a `next_id` counter;
audit-log entries never have their identifier observed, so they do not
consume the counter.
-/

/-- Record shape from `schemas.py` `Room`.  `zone` and `tariff_class` are
string enums in the source; nothing in `main.py` reads them beyond storage. -/
structure Room where
  code : String
  zone : String
  bed_count : Int
  occupied_beds : Int
  tariff_class : String
deriving DecidableEq

/-- Record shape from `schemas.py` `Admission`.  `end` is a Lean keyword, so
the field is named `end_`. -/
structure Admission where
  patient_id : String
  room_code : String
  bed_number : Option Int
  start : Int
  end_ : Option Int
  risk_movement : Option String
deriving DecidableEq

/-- Record shape from `schemas.py` `TriageEvent`. -/
structure TriageEvent where
  patient_id : String
  arrival_mode : Option String
  gcs : Option Int
  vital_signs : List (String × Option ℚ)
  esi_level : Option Int
  critical_flags : List String
  consent_emergency_protocol : Bool
  notes : Option String
deriving DecidableEq

/-- Record shape from `schemas.py` `InventoryItem`. -/
structure InventoryItem where
  sku : String
  name : String
  type : String
  barcode : Option String
  stock : Int
  sterile_batch : Option String
deriving DecidableEq

/-- Record shape from `schemas.py` `Procedure`.  The `materials`,
`e_signature` and `iot_devices` fields are stored verbatim and never read
by any handler, so they are omitted from the model. -/
structure Procedure where
  patient_id : String
  doctor_id : String
  description : String
  requires_sterile : Bool
  sterile_batch : Option String
  cssd_return_due : Option Int
deriving DecidableEq

/-- A prescription line item (`items: List[Dict[str, Any]]` in the source).
Only the `drug` and `sku` keys are ever read by `validate_prescription`;
`dose`, `freq`, etc. are stored verbatim and never read, so they are
omitted.  A missing key is `none`. -/
structure PrescItem where
  drug : Option String
  sku : Option String
deriving DecidableEq

/-- Record shape from `schemas.py` `Prescription`. -/
structure Prescription where
  patient_id : String
  items : List PrescItem
  allergies_checked : Bool
  interactions_checked : Bool
  status : String
deriving DecidableEq

/-- Record shape from `schemas.py` `Patient`.  Only `national_mrn` is kept:
every other demographic field is stored verbatim by `create_patient` and
never read by any handler. -/
structure Patient where
  national_mrn : String
deriving DecidableEq

/-- Record shape from `schemas.py` `LabResult`.  `results` is a free-form
mapping modelled as an association list of strings. -/
structure LabResult where
  order_id : String
  results : List (String × String)
  status : String
deriving DecidableEq

/-- Record shape from `schemas.py` `AuditLog`.  `entity_id` holds a
generated document id (abstracted as `Nat`) when known. -/
structure AuditLog where
  actor_id : Option String
  action : String
  entity : String
  entity_id : Option Nat
  meta : List (String × String)
deriving DecidableEq

/-- Modelled from the spec: the Record Store (`database.py`, imported by
`main.py` but not present under `src/`) is "a document collection keyed by
entity kind ... Pure storage; no logic".  Each collection written through
`create_document` is a list of (generated id, document) pairs; `next_id`
abstracts ObjectId generation. -/
structure Store where
  patients : List (Nat × Patient)
  triageevents : List (Nat × TriageEvent)
  rooms : List Room
  admissions : List (Nat × Admission)
  inventoryitems : List InventoryItem
  procedures : List (Nat × Procedure)
  labresults : List (Nat × LabResult)
  auditlog : List AuditLog
  next_id : Nat
deriving DecidableEq

/-- Outcome of a handler: a response value or an `HTTPException` with a
status code and detail string. -/
inductive HResult (α : Type) where
  | ok (a : α)
  | err (status : Nat) (detail : String)
deriving DecidableEq

/-- Response of `POST /triage`: `{"id": tid, "critical": ..., "consent": ...}`. -/
structure TriageResponse where
  id : Nat
  critical : Bool
  consent : Bool
deriving DecidableEq

/-- Response of `POST /pharmacy/validate`:
`{"status": ..., "out_of_stock": ...}`.  The source can append `None` to
`out_of_stock` (when an item has neither a `drug` nor a `sku` key), hence
`List (Option String)`. -/
structure ValidateResponse where
  status : String
  out_of_stock : List (Option String)
deriving DecidableEq

/-- Mongo `update_one` semantics: rewrite the first element matching the
filter, leave the rest of the collection unchanged. -/
def updateFirst {α : Type} (p : α → Bool) (f : α → α) : List α → List α
  | [] => []
  | x :: xs => if p x then f x :: xs else x :: updateFirst p f xs

/-- Index of the first element satisfying `p`, used to state where
`updateFirst` (and Mongo `find_one`) acts. -/
def firstIdx {α : Type} (p : α → Bool) : List α → Option Nat
  | [] => none
  | x :: xs => if p x then some 0 else (firstIdx p xs).map (· + 1)

/-- Modelled from the spec: `create_document("auditlog", entry)` lives in the
absent `database.py`; per the spec (section 4.4) an audit write "never fails
the parent operation (failures here, if any, must be caught and swallowed
without surfacing to the caller)".  `ok = false` models a failing audit
write: the entry is dropped and no exception escapes. -/
def record : Bool → Store → AuditLog → Store
  | true, s, e => { s with auditlog := s.auditlog ++ [e] }
  | false, s, _ => s

/-- `POST /patients` (`create_patient` in `main.py`): store the payload,
append an audit entry, return the generated id. -/
def create_patient (a : Bool) (s : Store) (p : Patient) : Store × HResult Nat :=
  let pid := s.next_id
  let s1 := { s with patients := s.patients ++ [(pid, p)], next_id := pid + 1 }
  let s2 := record a s1 ⟨none, "create", "patient", some pid, [("source", "api")]⟩
  (s2, HResult.ok pid)

/-- Python `payload.vital_signs.get("spo2")`: dictionary lookup whose stored
value may itself be `None` (`Dict[str, Optional[float]]`). -/
def dictGet (vs : List (String × Option ℚ)) (k : String) : Option ℚ :=
  match vs.lookup k with
  | some v => v
  | none => none

/-- The `spo2` value read by `triage`:
`payload.vital_signs.get("spo2") if payload.vital_signs else None`
(an empty dict is falsy in Python). -/
def spo2Of (p : TriageEvent) : Option ℚ :=
  if p.vital_signs.isEmpty then none else dictGet p.vital_signs "spo2"

/-- The `critical` flag computed by `triage` in `main.py`:
true when `gcs` is present with `gcs <= 8`, or `spo2` is present with
`spo2 < 90`. -/
def triageCritical (p : TriageEvent) : Bool :=
  let c1 := match p.gcs with
    | some g => decide (g ≤ 8)
    | none => false
  let c2 := match spo2Of p with
    | some x => decide (x < 90)
    | none => false
  c1 || c2

/-- The `data` dict persisted by `triage`: on a critical case without prior
consent, consent is forced true and the auto-consent flag is appended
(`data.setdefault("critical_flags", []).append(...)`; the key always exists
since `critical_flags` is a model field with a list default). -/
def triageData (p : TriageEvent) : TriageEvent :=
  if triageCritical p && !p.consent_emergency_protocol then
    { p with consent_emergency_protocol := true,
             critical_flags := p.critical_flags ++ ["auto_consent_emergency_protocol"] }
  else p

/-- `POST /triage` (`triage` in `main.py`): evaluate criticality, persist the
(possibly consent-amended) event, append an audit entry, return
`{id, critical, consent}` where consent is `data.get("consent_emergency_protocol", False)`. -/
def triage (a : Bool) (s : Store) (p : TriageEvent) : Store × HResult TriageResponse :=
  let critical := triageCritical p
  let d := triageData p
  let tid := s.next_id
  let s1 := { s with triageevents := s.triageevents ++ [(tid, d)], next_id := tid + 1 }
  let s2 := record a s1 ⟨none, "create", "triageevent", some tid, []⟩
  (s2, HResult.ok ⟨tid, critical, d.consent_emergency_protocol⟩)

/-- `POST /admissions` (`create_admission` in `main.py`):
404 when no room has the requested code, 409 when
`occupied_beds >= bed_count`, otherwise insert the admission payload,
`$inc` the first matching room's `occupied_beds` by 1, append an audit
entry and return the new admission id. -/
def create_admission (a : Bool) (s : Store) (p : Admission) : Store × HResult Nat :=
  match s.rooms.find? (fun r => r.code == p.room_code) with
  | none => (s, HResult.err 404 "Room not found")
  | some room =>
    if room.occupied_beds ≥ room.bed_count then
      (s, HResult.err 409 "No available bed")
    else
      let aid := s.next_id
      let s1 := { s with admissions := s.admissions ++ [(aid, p)], next_id := aid + 1 }
      let rooms2 :=
        updateFirst (fun r => r.code == p.room_code)
          (fun r => { r with occupied_beds := r.occupied_beds + 1 }) s1.rooms
      let s2 := { s1 with rooms := rooms2 }
      let s3 := record a s2 ⟨none, "create", "admission", some aid, []⟩
      (s3, HResult.ok aid)

/-- `POST /admissions/{admission_id}/discharge` (`discharge` in `main.py`).
Modelled from the spec for the lookup: the handler's dead `if False` branch
and its `$oid`-then-string-id fallback are, per the spec (section 9), "an
abandoned ObjectId-matching attempt ... a single well-defined
lookup-by-id path"; the store layer (`database.py`) is absent from `src/`,
so the two `find_one` calls are modelled as one lookup by generated id.
On success: `$inc` the first room matching the admission's `room_code` by
-1 (a missing room makes `update_one` a no-op; no floor at 0 is applied),
set the admission's `end` to the current time, append an audit entry. -/
def discharge (a : Bool) (now : Int) (s : Store) (aid : Nat) : Store × HResult Unit :=
  match s.admissions.find? (fun e => e.1 == aid) with
  | none => (s, HResult.err 404 "Admission not found")
  | some e =>
    let rooms1 :=
      updateFirst (fun r => r.code == e.2.room_code)
        (fun r => { r with occupied_beds := r.occupied_beds - 1 }) s.rooms
    let s1 := { s with rooms := rooms1 }
    let adms2 :=
      updateFirst (fun x => x.1 == e.1)
        (fun x => (x.1, { x.2 with end_ := some now })) s1.admissions
    let s2 := { s1 with admissions := adms2 }
    let s3 := record a s2 ⟨none, "update", "admission", some aid, [("op", "discharge")]⟩
    (s3, HResult.ok ())

/-- Python truthiness of `payload.sterile_batch` (`Optional[str]`):
`None` and the empty string are falsy. -/
def batchTruthy : Option String → Bool
  | none => false
  | some b => !(b == "")

/-- The `data` dict persisted by `create_procedure`: when
`payload.requires_sterile and not payload.sterile_batch`, an `AUTO-` batch
tag stamped with the current epoch second and a return-due timestamp 8
hours (28800 seconds) ahead are filled in. -/
def procedureData (now : Int) (p : Procedure) : Procedure :=
  if p.requires_sterile && !(batchTruthy p.sterile_batch) then
    { p with sterile_batch := some ("AUTO-" ++ toString now),
             cssd_return_due := some (now + 8 * 3600) }
  else p

/-- `POST /procedures` (`create_procedure` in `main.py`). -/
def create_procedure (a : Bool) (now : Int) (s : Store) (p : Procedure) :
    Store × HResult Nat :=
  let d := procedureData now p
  let pid := s.next_id
  let s1 := { s with procedures := s.procedures ++ [(pid, d)], next_id := pid + 1 }
  let s2 := record a s1 ⟨none, "create", "procedure", some pid, []⟩
  (s2, HResult.ok pid)

/-- The identifier resolved for a prescription item:
`it.get("drug") or it.get("sku")` — Python `or` falls through on a missing
key and on the falsy empty string. -/
def resolveSku (it : PrescItem) : Option String :=
  match it.drug with
  | some d => if d == "" then it.sku else some d
  | none => it.sku

/-- `db["inventoryitem"].find_one({"sku": sku})`: a `None` identifier
matches no stored item, since `sku` is a required string field of every
`InventoryItem` document. -/
def findInv (inv : List InventoryItem) : Option String → Option InventoryItem
  | some k => inv.find? (fun i => i.sku == k)
  | none => none

/-- The `for it in items` loop of `validate_prescription`: append the
resolved identifier to `out_of_stock` when no inventory record matches or
the matched record's `stock <= 0`. -/
def stockScan (inv : List InventoryItem) : List PrescItem → List (Option String) →
    List (Option String)
  | [], acc => acc
  | it :: rest, acc =>
    let sku := resolveSku it
    match findInv inv sku with
    | none => stockScan inv rest (acc ++ [sku])
    | some iv =>
      if iv.stock ≤ 0 then stockScan inv rest (acc ++ [sku])
      else stockScan inv rest acc

/-- `POST /pharmacy/validate` (`validate_prescription` in `main.py`):
read-only — it performs inventory lookups and returns a verdict without
any `create_document` or `update_one` call (its `if False` allergy-checker
stub evaluates to an unused empty set). -/
def validate_prescription (s : Store) (req : Prescription) :
    Store × ValidateResponse :=
  let out := stockScan s.inventoryitems req.items []
  let status := if out.isEmpty then "validated" else "out_of_stock_external"
  (s, ⟨status, out⟩)

/-- `POST /labs/external/callback` (`external_lab_result` in `main.py`). -/
def external_lab_result (a : Bool) (s : Store) (p : LabResult) :
    Store × HResult Nat :=
  let rid := s.next_id
  let s1 := { s with labresults := s.labresults ++ [(rid, p)], next_id := rid + 1 }
  let s2 := record a s1 ⟨none, "create", "labresult", some rid, [("source", "external")]⟩
  (s2, HResult.ok rid)

/-- `GET /dashboard/bor` (`dashboard_bor` in `main.py`): the JSON object
`{"total_beds": ..., "occupied": ..., "bor": ...}` as an ordered list of
key-value pairs.  `occupied / total_beds` is Python true division, modelled
exactly in `ℚ`; the guard `if total_beds` is integer truthiness. -/
def dashboard_bor (s : Store) : List (String × ℚ) :=
  let total : Int := s.rooms.foldl (fun acc r => acc + r.bed_count) 0
  let occ : Int := s.rooms.foldl (fun acc r => acc + r.occupied_beds) 0
  [("total_beds", (total : ℚ)), ("occupied", (occ : ℚ)),
   ("bor", if total ≠ 0 then (occ : ℚ) / (total : ℚ) * 100 else 0)]

/-- An external call sequence against the admission ledger, as in the
spec's "any sequence of admit/discharge calls". -/
inductive Op where
  | admission (p : Admission)
  | discharge (now : Int) (aid : Nat)

/-- Effect of one HTTP call on the store (an error response leaves the
store as the handler returned it). -/
def step (s : Store) : Op → Store
  | Op.admission p => (create_admission true s p).1
  | Op.discharge now aid => (discharge true now s aid).1

/-- Effect of a sequence of admit/discharge calls. -/
def run (s : Store) (ops : List Op) : Store := ops.foldl step s

/-- The room invariant claimed by the spec: `0 <= occupied_beds <= bed_count`
for every room. -/
def roomInv (s : Store) : Bool :=
  s.rooms.all (fun r => decide (0 ≤ r.occupied_beds) && decide (r.occupied_beds ≤ r.bed_count))

/-- The store with the audit log erased, for comparing runs whose audit
writes succeeded or failed. -/
def eraseAudit (s : Store) : Store := { s with auditlog := [] }

/-! ### Concrete fixtures used by witnesses and counterexamples -/

/-- The store with every collection empty. -/
def emptyStore : Store := ⟨[], [], [], [], [], [], [], [], 0⟩

/-- A one-bed, unoccupied room. -/
def roomA1 : Room := ⟨"A1", "Umum", 1, 0, "3"⟩

/-- A store holding exactly the room `A1` with one free bed. -/
def s0 : Store := { emptyStore with rooms := [roomA1] }

/-- A store whose only room `A1` is at capacity (1 of 1 beds occupied). -/
def sFull : Store := { emptyStore with rooms := [{ roomA1 with occupied_beds := 1 }] }

/-- An admission request for room `A1`. -/
def adm0 : Admission := ⟨"p1", "A1", none, 0, none, none⟩

/-- An admission request naming a room code no Room record has. -/
def adm404 : Admission := ⟨"p1", "NOPE", none, 0, none, none⟩

/-- A store holding room `A1` with zero occupied beds and one already-closed
admission (id 0, `end` set). -/
def sClosed : Store :=
  { emptyStore with rooms := [roomA1],
                    admissions := [(0, { adm0 with end_ := some 5 })], next_id := 1 }

/-- A triage payload with `gcs = 7` (critical), `spo2 = 95`, no prior consent. -/
def pCrit : TriageEvent := ⟨"p1", none, some 7, [("spo2", some 95)], none, [], false, none⟩

/-- A triage payload with `gcs = 12` and `spo2 = 95` (not critical). -/
def pCalm : TriageEvent := ⟨"p1", none, some 12, [("spo2", some 95)], none, [], false, none⟩

/-- A sterile procedure request whose supplied `sterile_batch` is the empty
string. -/
def pEmptyBatch : Procedure := ⟨"p1", "d1", "appendectomy", true, some "", none⟩

/-! ### Helper lemmas about `firstIdx`, `updateFirst` and `List.find?` -/

theorem firstIdx_get {α : Type} (p : α → Bool) (l : List α) (i : Nat) (x : α)
    (h1 : firstIdx p l = some i) (h2 : l[i]? = some x) : p x = true := by
  induction l generalizing i with
  | nil => simp [firstIdx] at h1
  | cons y ys ih =>
    by_cases hp : p y
    · simp [firstIdx, hp] at h1
      subst h1
      simp at h2
      subst h2
      exact hp
    · simp [firstIdx, hp] at h1
      obtain ⟨j, hj, rfl⟩ := h1
      simp at h2
      exact ih j hj h2

theorem find?_of_firstIdx {α : Type} (p : α → Bool) (l : List α) (i : Nat) (x : α)
    (h1 : firstIdx p l = some i) (h2 : l[i]? = some x) : l.find? p = some x := by
  induction l generalizing i with
  | nil => simp [firstIdx] at h1
  | cons y ys ih =>
    by_cases hp : p y
    · simp [firstIdx, hp] at h1
      subst h1
      simp at h2
      subst h2
      simp [List.find?, hp]
    · simp [firstIdx, hp] at h1
      obtain ⟨j, hj, rfl⟩ := h1
      simp at h2
      simp [List.find?, hp]
      exact ih j hj h2

theorem updateFirst_get_self {α : Type} (p : α → Bool) (f : α → α) (l : List α) (i : Nat)
    (h : firstIdx p l = some i) : (updateFirst p f l)[i]? = (l[i]?).map f := by
  induction l generalizing i with
  | nil => simp [firstIdx] at h
  | cons y ys ih =>
    by_cases hp : p y
    · simp [firstIdx, hp] at h
      subst h
      simp [updateFirst, hp]
    · simp [firstIdx, hp] at h
      obtain ⟨j, hj, rfl⟩ := h
      simp [updateFirst, hp]
      exact ih j hj

theorem updateFirst_get_other {α : Type} (p : α → Bool) (f : α → α) (l : List α)
    (i k : Nat) (h : firstIdx p l = some i) (hk : k ≠ i) :
    (updateFirst p f l)[k]? = l[k]? := by
  induction l generalizing i k with
  | nil => simp [firstIdx] at h
  | cons y ys ih =>
    by_cases hp : p y
    · simp [firstIdx, hp] at h
      subst h
      match k, hk with
      | k + 1, _ => simp [updateFirst, hp]
    · simp [firstIdx, hp] at h
      obtain ⟨j, hj, rfl⟩ := h
      match k, hk with
      | 0, _ => simp [updateFirst, hp]
      | k + 1, hk =>
        simp [updateFirst, hp]
        exact ih j k hj (by omega)

theorem updateFirst_of_find?_none {α : Type} (p : α → Bool) (f : α → α) (l : List α)
    (h : l.find? p = none) : updateFirst p f l = l := by
  induction l with
  | nil => rfl
  | cons y ys ih =>
    rw [List.find?_cons] at h
    match hp : p y with
    | true => rw [hp] at h; exact absurd h (by simp)
    | false =>
      rw [hp] at h
      simp [updateFirst, hp]
      exact ih h

theorem updateFirst_length {α : Type} (p : α → Bool) (f : α → α) (l : List α) :
    (updateFirst p f l).length = l.length := by
  induction l with
  | nil => rfl
  | cons y ys ih =>
    by_cases hp : p y <;> simp [updateFirst, hp, ih]

/-! ### Claim theorems -/

/-- C1: the claim says `occupied_beds` stays within `[0, bed_count]` after
any sequence of admit/discharge calls from a state satisfying the
invariant.  The code has no floor at 0: starting from the valid store `s0`
(room `A1`, 1 bed, 0 occupied), admitting once and then discharging the
same admission twice drives `occupied_beds` to `-1`, violating the
invariant — the defect the spec itself flags in sections 4.1, 5 and 9. -/
theorem c1_bed_invariant_violation :
    roomInv s0 = true ∧
    (run s0 [Op.admission adm0, Op.discharge 5 0, Op.discharge 6 0]).rooms =
      [{ roomA1 with occupied_beds := -1 }] ∧
    roomInv (run s0 [Op.admission adm0, Op.discharge 5 0, Op.discharge 6 0]) = false := by
  decide

/-- C3: `POST /admissions` fails with 404 when no Room record has the
requested code and with 409 when the matched room has
`occupied_beds >= bed_count`; in both cases the handler returns the store
untouched — no Admission is created and no bed count changes. -/
theorem c3_admit_failure_cases (a : Bool) (s : Store) (p : Admission) :
    (s.rooms.find? (fun r => r.code == p.room_code) = none →
      create_admission a s p = (s, HResult.err 404 "Room not found")) ∧
    (∀ room, s.rooms.find? (fun r => r.code == p.room_code) = some room →
      room.occupied_beds ≥ room.bed_count →
      create_admission a s p = (s, HResult.err 409 "No available bed")) := by
  constructor
  · intro h
    simp [create_admission, h]
  · intro room h hcap
    simp [create_admission, h, hcap]

/-- Witness for C3: admitting to the unknown room code `NOPE` yields 404
with the store unchanged, and admitting to the full room `A1` (1 of 1 beds
occupied) yields 409 with the store unchanged. -/
theorem c3_admit_failure_witness :
    create_admission true s0 adm404 = (s0, HResult.err 404 "Room not found") ∧
    create_admission true sFull adm0 = (sFull, HResult.err 409 "No available bed") :=
  ⟨(c3_admit_failure_cases true s0 adm404).1 (by decide),
   (c3_admit_failure_cases true sFull adm0).2 { roomA1 with occupied_beds := 1 }
     (by decide) (by decide)⟩

/-- An admission request that already carries an `end` timestamp. -/
def admEnd : Admission := ⟨"p1", "A1", none, 0, some 99, none⟩

/-- C4 counterexample: the claim says every successful admit creates an
Admission record with `end = null`.  The handler stores the payload as
given: admitting `admEnd` (whose `end` is 99) into the free room `A1`
succeeds and the single created Admission record has `end = some 99`,
not `null`. -/
theorem c4_admit_end_counterexample :
    (create_admission true s0 admEnd).2 = HResult.ok 0 ∧
    (create_admission true s0 admEnd).1.admissions.map (fun e => e.2.end_) = [some 99] ∧
    (some 99 : Option Int) ≠ none := by
  decide

/-- C4 amended: on a successful admit (the first room matching the payload's
`room_code` sits at index `i` and has a free bed), exactly one Admission
record is created holding the payload as given — its `end` is the payload's
`end` field, which is `null` whenever the request omitted it — the matched
room's `occupied_beds` is incremented by exactly 1, an audit entry is
appended, and every other room and every other collection is unchanged. -/
theorem c4_admit_success_amended (s : Store) (p : Admission) (i : Nat) (room : Room)
    (hi : firstIdx (fun r => r.code == p.room_code) s.rooms = some i)
    (hr : s.rooms[i]? = some room)
    (hcap : room.occupied_beds < room.bed_count) :
    (create_admission true s p).2 = HResult.ok s.next_id ∧
    (create_admission true s p).1.admissions = s.admissions ++ [(s.next_id, p)] ∧
    (create_admission true s p).1.rooms[i]? =
      some { room with occupied_beds := room.occupied_beds + 1 } ∧
    (∀ j, j ≠ i → (create_admission true s p).1.rooms[j]? = s.rooms[j]?) ∧
    (create_admission true s p).1.auditlog =
      s.auditlog ++ [⟨none, "create", "admission", some s.next_id, []⟩] ∧
    (create_admission true s p).1.patients = s.patients ∧
    (create_admission true s p).1.triageevents = s.triageevents ∧
    (create_admission true s p).1.inventoryitems = s.inventoryitems ∧
    (create_admission true s p).1.procedures = s.procedures ∧
    (create_admission true s p).1.labresults = s.labresults := by
  have hfind : s.rooms.find? (fun r => r.code == p.room_code) = some room :=
    find?_of_firstIdx _ _ _ _ hi hr
  have hnot : ¬ (room.occupied_beds ≥ room.bed_count) := by omega
  refine ⟨?_, ?_, ?_, ?_, ?_, ?_, ?_, ?_, ?_, ?_⟩
  · simp [create_admission, hfind, hnot, record]
  · simp [create_admission, hfind, hnot, record]
  · simp [create_admission, hfind, hnot, record]
    rw [updateFirst_get_self _ _ _ _ hi, hr]
    rfl
  · intro j hj
    simp [create_admission, hfind, hnot, record]
    exact updateFirst_get_other _ _ _ i j hi hj
  · simp [create_admission, hfind, hnot, record]
  · simp [create_admission, hfind, hnot, record]
  · simp [create_admission, hfind, hnot, record]
  · simp [create_admission, hfind, hnot, record]
  · simp [create_admission, hfind, hnot, record]
  · simp [create_admission, hfind, hnot, record]

/-- Witness for C4 amended: admitting `adm0` into the free room `A1` of `s0`
returns id 0, creates exactly the record `(0, adm0)` and raises `A1` to one
occupied bed. -/
theorem c4_admit_success_witness :
    (create_admission true s0 adm0).2 = HResult.ok 0 ∧
    (create_admission true s0 adm0).1.admissions = [(0, adm0)] ∧
    (create_admission true s0 adm0).1.rooms[0]? =
      some { roomA1 with occupied_beds := 1 } := by
  have h := c4_admit_success_amended s0 adm0 0 roomA1 (by decide) (by decide) (by decide)
  exact ⟨h.1, by simpa using h.2.1, by simpa using h.2.2.1⟩

/-- C5: `POST /admissions/{id}/discharge` returns 404 with the store
untouched when no admission matches the id.  On success it sets the
admission's `end` to the current time and decrements the first room
matching the admission's `room_code` by 1 — with no check of the stored
`end` and no floor at 0, so an already-closed admission (any `e.2.end_`)
is decremented again; all other admissions and rooms are unchanged. -/
theorem c5_discharge_spec (now : Int) (s : Store) (aid : Nat) :
    (s.admissions.find? (fun e => e.1 == aid) = none →
      discharge true now s aid = (s, HResult.err 404 "Admission not found")) ∧
    (∀ i e, firstIdx (fun x => x.1 == aid) s.admissions = some i →
      s.admissions[i]? = some e →
      (discharge true now s aid).2 = HResult.ok () ∧
      (discharge true now s aid).1.admissions[i]? =
        some (e.1, { e.2 with end_ := some now }) ∧
      (∀ k, k ≠ i → (discharge true now s aid).1.admissions[k]? = s.admissions[k]?) ∧
      (∀ j r, firstIdx (fun x => x.code == e.2.room_code) s.rooms = some j →
        s.rooms[j]? = some r →
        (discharge true now s aid).1.rooms[j]? =
          some { r with occupied_beds := r.occupied_beds - 1 } ∧
        (∀ k, k ≠ j → (discharge true now s aid).1.rooms[k]? = s.rooms[k]?))) := by
  constructor
  · intro h
    simp [discharge, h]
  · intro i e hi he
    have he1 : e.1 = aid := by
      have hb := firstIdx_get _ _ _ _ hi he
      simpa using hb
    have hfind : s.admissions.find? (fun x => x.1 == aid) = some e :=
      find?_of_firstIdx _ _ _ _ hi he
    have hi2 : firstIdx (fun x => x.1 == e.1) s.admissions = some i := by
      simpa [he1] using hi
    refine ⟨?_, ?_, ?_, ?_⟩
    · simp [discharge, hfind, record]
    · simp [discharge, hfind, record]
      rw [updateFirst_get_self _ _ _ _ hi2, he]
      rfl
    · intro k hk
      simp [discharge, hfind, record]
      exact updateFirst_get_other _ _ _ i k hi2 hk
    · intro j r hj hrj
      constructor
      · simp [discharge, hfind, record]
        rw [updateFirst_get_self _ _ _ _ hj, hrj]
        rfl
      · intro k hk
        simp [discharge, hfind, record]
        exact updateFirst_get_other _ _ _ j k hj hk

/-- Witness for C5: discharging the unknown admission id 3 in the empty
store yields 404; discharging the already-closed admission 0 of `sClosed`
(room `A1` at 0 occupied beds, admission `end = 5`) succeeds, stamps
`end = 7`, and decrements `A1` to `-1` occupied beds — the unfloored
re-decrement the claim describes. -/
theorem c5_discharge_witness :
    discharge true 7 emptyStore 3 = (emptyStore, HResult.err 404 "Admission not found") ∧
    (discharge true 7 sClosed 0).2 = HResult.ok () ∧
    (discharge true 7 sClosed 0).1.admissions[0]? =
      some (0, { adm0 with end_ := some 7 }) ∧
    (discharge true 7 sClosed 0).1.rooms[0]? =
      some { roomA1 with occupied_beds := -1 } := by
  have h1 := (c5_discharge_spec 7 emptyStore 3).1 (by decide)
  have h2 := (c5_discharge_spec 7 sClosed 0).2 0 (0, { adm0 with end_ := some 5 })
    (by decide) (by decide)
  have h3 := h2.2.2.2 0 roomA1 (by decide) (by decide)
  exact ⟨h1, h2.1, h2.2.1, h3.1⟩

theorem dictGet_eq_join (vs : List (String × Option ℚ)) (k : String) :
    dictGet vs k = (vs.lookup k).join := by
  cases h : vs.lookup k <;> simp [dictGet, h]

theorem spo2Of_eq_join (p : TriageEvent) :
    spo2Of p = (p.vital_signs.lookup "spo2").join := by
  cases hv : p.vital_signs with
  | nil => simp [spo2Of, hv]
  | cons x xs => simp [spo2Of, hv, dictGet_eq_join]

theorem triageCritical_iff (p : TriageEvent) :
    triageCritical p = true ↔
      ((∃ g, p.gcs = some g ∧ g ≤ 8) ∨
       (∃ x, p.vital_signs.lookup "spo2" = some (some x) ∧ x < 90)) := by
  have hs : spo2Of p = (p.vital_signs.lookup "spo2").join := spo2Of_eq_join p
  unfold triageCritical
  rw [hs]
  cases hg : p.gcs with
  | none =>
    cases hl : p.vital_signs.lookup "spo2" with
    | none => simp
    | some v => cases v <;> simp
  | some g =>
    cases hl : p.vital_signs.lookup "spo2" with
    | none => simp
    | some v => cases v <;> simp

/-- C2: the triage evaluator marks the event critical exactly when `gcs` is
present with `gcs <= 8` or `vital_signs` carries a non-null `spo2` below
90.  The persisted event is `triageData p` and the response reports the
generated id, the critical verdict and the persisted consent.  When
critical and the incoming consent flag is false, the persisted consent is
forced true and `"auto_consent_emergency_protocol"` is appended to
`critical_flags`; in every other case the event is persisted unchanged. -/
theorem c2_triage_critical_consent (s : Store) (p : TriageEvent) :
    (triageCritical p = true ↔
      ((∃ g, p.gcs = some g ∧ g ≤ 8) ∨
       (∃ x, p.vital_signs.lookup "spo2" = some (some x) ∧ x < 90))) ∧
    (triage true s p).1.triageevents = s.triageevents ++ [(s.next_id, triageData p)] ∧
    (triage true s p).2 =
      HResult.ok ⟨s.next_id, triageCritical p, (triageData p).consent_emergency_protocol⟩ ∧
    (triageCritical p = true → p.consent_emergency_protocol = false →
      (triageData p).consent_emergency_protocol = true ∧
      (triageData p).critical_flags =
        p.critical_flags ++ ["auto_consent_emergency_protocol"]) ∧
    (triageCritical p = false ∨ p.consent_emergency_protocol = true →
      triageData p = p) := by
  refine ⟨triageCritical_iff p, ?_, ?_, ?_, ?_⟩
  · simp [triage, record]
  · simp [triage, record]
  · intro hc hcons
    simp [triageData, hc, hcons]
  · intro h
    rcases h with h | h
    · simp [triageData, h]
    · simp [triageData, h]

/-- Witness for C2: the payload `pCrit` (gcs 7, spo2 95, no consent) is
critical, gets consent forced true and the auto-consent flag appended; the
payload `pCalm` (gcs 12, spo2 95, no consent) is not critical and is
persisted unchanged. -/
theorem c2_triage_witness :
    (triageData pCrit).consent_emergency_protocol = true ∧
    (triageData pCrit).critical_flags = ["auto_consent_emergency_protocol"] ∧
    triageData pCalm = pCalm ∧
    triageCritical pCrit = true ∧
    triageCritical pCalm = false := by
  have h1 := (c2_triage_critical_consent emptyStore pCrit).2.2.2.1 (by decide) rfl
  have h2 := (c2_triage_critical_consent emptyStore pCalm).2.2.2.2 (Or.inl (by decide))
  exact ⟨h1.1, by simpa using h1.2, h2, by decide, by decide⟩

/-- The claim's per-item out-of-stock condition: no InventoryItem record
matches the item's resolved identifier, or the matched record's stock is
at most 0. -/
def itemOutOfStock (inv : List InventoryItem) (it : PrescItem) : Bool :=
  match findInv inv (resolveSku it) with
  | none => true
  | some iv => decide (iv.stock ≤ 0)

theorem stockScan_eq (inv : List InventoryItem) (items : List PrescItem)
    (acc : List (Option String)) :
    stockScan inv items acc =
      acc ++ (items.filter (fun it => itemOutOfStock inv it)).map resolveSku := by
  induction items generalizing acc with
  | nil => simp [stockScan]
  | cons it rest ih =>
    cases hfi : findInv inv (resolveSku it) with
    | none => simp [stockScan, hfi, itemOutOfStock, ih]
    | some iv =>
      by_cases hs : iv.stock ≤ 0
      · simp [stockScan, hfi, itemOutOfStock, hs, ih]
      · simp [stockScan, hfi, itemOutOfStock, hs, ih]

/-- C6: the `out_of_stock` list returned by `POST /pharmacy/validate` is
exactly the resolved identifiers of the request items for which no
InventoryItem record matches or the matched record's stock is `<= 0`, in
request order; the status is `"validated"` exactly when that list is empty
and `"out_of_stock_external"` exactly otherwise. -/
theorem c6_pharmacy_stock (s : Store) (req : Prescription) :
    (validate_prescription s req).2.out_of_stock =
      (req.items.filter (fun it => itemOutOfStock s.inventoryitems it)).map resolveSku ∧
    ((validate_prescription s req).2.status = "validated" ↔
      (validate_prescription s req).2.out_of_stock = []) ∧
    ((validate_prescription s req).2.status = "out_of_stock_external" ↔
      ¬ (validate_prescription s req).2.out_of_stock = []) := by
  refine ⟨by simpa [validate_prescription] using stockScan_eq s.inventoryitems req.items [], ?_, ?_⟩
  · cases hout : stockScan s.inventoryitems req.items [] with
    | nil => simp [validate_prescription, hout]
    | cons x xs => simp [validate_prescription, hout]
  · cases hout : stockScan s.inventoryitems req.items [] with
    | nil => simp [validate_prescription, hout]
    | cons x xs => simp [validate_prescription, hout]

theorem foldl_add_eq_sum (f : Room → Int) (l : List Room) (a : Int) :
    l.foldl (fun acc r => acc + f r) a = a + (l.map f).sum := by
  induction l generalizing a with
  | nil => simp
  | cons r rs ih =>
    rw [List.foldl_cons, ih, List.map_cons, List.sum_cons]
    ring

/-- C7 counterexample: the claim says the occupancy report carries a field
`bed_occupancy_rate`.  The handler's JSON object has no such key — the rate
is returned under the key `"bor"` (here at the store with zero rooms, where
the claim expects `{total_beds: 0, occupied: 0, bed_occupancy_rate: 0}`). -/
theorem c7_bor_field_counterexample :
    (dashboard_bor emptyStore).lookup "bed_occupancy_rate" = none ∧
    (dashboard_bor emptyStore).lookup "bor" = some 0 ∧
    (dashboard_bor emptyStore).lookup "total_beds" = some 0 ∧
    (dashboard_bor emptyStore).lookup "occupied" = some 0 := by
  decide

/-- C7 amended: `GET /dashboard/bor` returns `total_beds` and `occupied` as
the sums of `bed_count` and `occupied_beds` over all Room records, and the
occupancy rate — under the key `"bor"`, not `"bed_occupancy_rate"` — equal
to `occupied / total_beds * 100`, defined as 0 when `total_beds = 0`; in
particular with zero rooms it returns total 0, occupied 0, rate 0 with no
division-by-zero error. -/
theorem c7_bor_amended (s : Store) :
    dashboard_bor s =
      [("total_beds", ((s.rooms.map Room.bed_count).sum : ℚ)),
       ("occupied", ((s.rooms.map Room.occupied_beds).sum : ℚ)),
       ("bor",
         if (s.rooms.map Room.bed_count).sum = 0 then 0
         else ((s.rooms.map Room.occupied_beds).sum : ℚ)
                / ((s.rooms.map Room.bed_count).sum : ℚ) * 100)] := by
  simp only [dashboard_bor]
  rw [foldl_add_eq_sum, foldl_add_eq_sum]
  by_cases h : (s.rooms.map Room.bed_count).sum = 0
  · simp [h]
  · simp [h]

theorem eraseAudit_record (b : Bool) (s : Store) (e : AuditLog) :
    eraseAudit (record b s e) = eraseAudit s := by
  cases b <;> simp [record, eraseAudit]

/-- C8: for every mutating endpoint, a failing audit write (modelled by the
`false` flag threaded to `record`) is swallowed: the endpoint returns the
same response, and the same store up to the audit log, as a run whose
audit write succeeded. -/
theorem c8_audit_failure_isolation (s : Store) (pp : Patient) (pt : TriageEvent)
    (pa : Admission) (now : Int) (aid : Nat) (pr : Procedure) (pl : LabResult) :
    (eraseAudit (create_patient false s pp).1 = eraseAudit (create_patient true s pp).1 ∧
      (create_patient false s pp).2 = (create_patient true s pp).2) ∧
    (eraseAudit (triage false s pt).1 = eraseAudit (triage true s pt).1 ∧
      (triage false s pt).2 = (triage true s pt).2) ∧
    (eraseAudit (create_admission false s pa).1 = eraseAudit (create_admission true s pa).1 ∧
      (create_admission false s pa).2 = (create_admission true s pa).2) ∧
    (eraseAudit (discharge false now s aid).1 = eraseAudit (discharge true now s aid).1 ∧
      (discharge false now s aid).2 = (discharge true now s aid).2) ∧
    (eraseAudit (create_procedure false now s pr).1 = eraseAudit (create_procedure true now s pr).1 ∧
      (create_procedure false now s pr).2 = (create_procedure true now s pr).2) ∧
    (eraseAudit (external_lab_result false s pl).1 = eraseAudit (external_lab_result true s pl).1 ∧
      (external_lab_result false s pl).2 = (external_lab_result true s pl).2) := by
  refine ⟨⟨?_, ?_⟩, ⟨?_, ?_⟩, ⟨?_, ?_⟩, ⟨?_, ?_⟩, ⟨?_, ?_⟩, ⟨?_, ?_⟩⟩
  · simp [create_patient, eraseAudit_record]
  · simp [create_patient, record]
  · simp [triage, eraseAudit_record]
  · simp [triage, record]
  · cases hfind : s.rooms.find? (fun r => r.code == pa.room_code) with
    | none => simp [create_admission, hfind]
    | some room =>
      by_cases h : room.occupied_beds ≥ room.bed_count <;>
        simp [create_admission, hfind, h, eraseAudit_record]
  · cases hfind : s.rooms.find? (fun r => r.code == pa.room_code) with
    | none => simp [create_admission, hfind]
    | some room =>
      by_cases h : room.occupied_beds ≥ room.bed_count <;>
        simp [create_admission, hfind, h, record]
  · cases hfind : s.admissions.find? (fun e => e.1 == aid) with
    | none => simp [discharge, hfind]
    | some e => simp [discharge, hfind, eraseAudit_record]
  · cases hfind : s.admissions.find? (fun e => e.1 == aid) with
    | none => simp [discharge, hfind]
    | some e => simp [discharge, hfind, record]
  · simp [create_procedure, eraseAudit_record]
  · simp [create_procedure, record]
  · simp [external_lab_result, eraseAudit_record]
  · simp [external_lab_result, record]

/-- C10: `POST /pharmacy/validate` writes nothing — the handler returns the
store exactly as it received it, so no Prescription is persisted, no
status updated, no stock changed, and no AuditLog entry appended. -/
theorem c10_pharmacy_writes_nothing (s : Store) (req : Prescription) :
    (validate_prescription s req).1 = s := rfl

/-- C9 counterexample: the claim says that when a `sterile_batch` was
supplied, it is stored as given.  Supplying the empty string (which Python
treats as falsy) with `requires_sterile = true` is overwritten by an
auto-generated tag: `pEmptyBatch` supplies `sterile_batch = ""`, yet the
stored procedure carries `"AUTO-0"`. -/
theorem c9_sterile_empty_batch_counterexample :
    pEmptyBatch.requires_sterile = true ∧
    pEmptyBatch.sterile_batch = some "" ∧
    (create_procedure true 0 emptyStore pEmptyBatch).1.procedures.map
      (fun e => e.2.sterile_batch) = [some "AUTO-0"] ∧
    (some "AUTO-0" : Option String) ≠ some "" := by
  decide

/-- C9 amended: `POST /procedures` stores exactly one record,
`procedureData now p`.  When `requires_sterile` is true and the supplied
`sterile_batch` is absent or the empty string (Python-falsy), the stored
record gets the auto-generated tag `AUTO-<epoch>` and a return-due
timestamp exactly 8 hours (28800 seconds) ahead; when `requires_sterile`
is false or a non-empty `sterile_batch` was supplied, the payload is
stored exactly as given. -/
theorem c9_procedure_sterile_amended (now : Int) (s : Store) (p : Procedure) :
    (create_procedure true now s p).1.procedures =
      s.procedures ++ [(s.next_id, procedureData now p)] ∧
    (create_procedure true now s p).2 = HResult.ok s.next_id ∧
    (p.requires_sterile = true → batchTruthy p.sterile_batch = false →
      (procedureData now p).sterile_batch = some ("AUTO-" ++ toString now) ∧
      (procedureData now p).cssd_return_due = some (now + 8 * 3600)) ∧
    (p.requires_sterile = false ∨ batchTruthy p.sterile_batch = true →
      procedureData now p = p) := by
  refine ⟨?_, ?_, ?_, ?_⟩
  · simp [create_procedure, record]
  · simp [create_procedure, record]
  · intro h1 h2
    simp [procedureData, h1, h2]
  · intro h
    rcases h with h | h
    · simp [procedureData, h]
    · simp [procedureData, h]

/-- A sterile procedure request with no batch supplied. -/
def pSterile : Procedure := ⟨"p1", "d1", "appendectomy", true, none, none⟩

/-- A non-sterile procedure request with a batch and return-due supplied. -/
def pNonSterile : Procedure := ⟨"p1", "d1", "imaging", false, some "B7", some 1⟩

/-- Witness for C9 amended: at time 5, the batchless sterile request gets
tag `AUTO-5` and return-due 28805; the non-sterile request is stored
exactly as given. -/
theorem c9_procedure_sterile_witness :
    (procedureData 5 pSterile).sterile_batch = some "AUTO-5" ∧
    (procedureData 5 pSterile).cssd_return_due = some 28805 ∧
    procedureData 5 pNonSterile = pNonSterile := by
  have h1 := (c9_procedure_sterile_amended 5 emptyStore pSterile).2.2.1 rfl rfl
  have h2 := (c9_procedure_sterile_amended 5 emptyStore pNonSterile).2.2.2 (Or.inl rfl)
  exact ⟨h1.1.trans (by decide), h1.2.trans (by decide), h2⟩
